import Mathlib

/-!
Verification of the sidecar backend supervisor in
`src/tauri-agent-demo/src-tauri/src/lib.rs`.

The Rust code is shallowly embedded: environment variables, filesystem
existence and the outcome of OS calls (directory creation, process spawn)
are fields of an explicit `AppCtx`; side effects performed by
`spawn_backend` are returned as an explicit trace of `Effect`s; the
lifecycle registry (`BackendChild(Mutex<Option<Child>>)`) is an
`Option (Option Child)` — the outer `Option` is whether the managed state
was installed at all (`try_state`), the inner one is the mutex-guarded slot.
-/

namespace TauriAgent

/-! ### String literals from the source -/

def exeNameWin : String := "tauri-agent-backend.exe"

def exeNameUnix : String := "tauri-agent-backend"

def mainLabel : String := "main"

def extBackendVar : String := "TAURI_AGENT_EXTERNAL_BACKEND"

def dbPathVar : String := "TAURI_AGENT_DB_PATH"

def oneLit : String := "1"

def trueLit : String := "true"

def extSkipMsg : String := "External backend enabled; skipping sidecar spawn."

def extMarker : String := "External backend enabled"

def resourceDirErr : String := "Failed to resolve resource directory."

def appDataDirErr : String := "Failed to resolve app data directory."

def createDirErrPre : String := "Failed to create app data directory: "

def notFoundPre : String := "Backend sidecar not found at "

def dotLit : String := "."

def sepLit : String := "/"

def dotdotLit : String := ".."

def pythonBackendDir : String := "python-backend"

def chatDbName : String := "chat_app.db"

def appConfigName : String := "app_config.json"

def toolsConfigName : String := "tools_config.json"

def spawnErrPre : String := "Failed to spawn backend sidecar: "

def argHost : String := "--host"

def hostVal : String := "127.0.0.1"

def argPort : String := "--port"

def portVal : String := "8000"

def dataDirVar : String := "TAURI_AGENT_DATA_DIR"

def appConfigVar : String := "APP_CONFIG_PATH"

def toolsConfigVar : String := "TOOLS_CONFIG_PATH"

/-! ### Small string helpers mirroring Rust std behaviour -/

/-- Rust `PathBuf::join` (paths are modelled as plain strings). -/
def pjoin (a b : String) : String := a ++ sepLit ++ b

/-- ASCII lowercasing of a single character, as in Rust's
`eq_ignore_ascii_case`. -/
def asciiLower (c : Char) : Char :=
  if c.toNat ≥ 65 ∧ c.toNat ≤ 90 then Char.ofNat (c.toNat + 32) else c

/-- Rust `str::eq_ignore_ascii_case`. -/
def eqIgnoreAsciiCase (a b : String) : Bool :=
  a.data.map asciiLower == b.data.map asciiLower

/-- Whether `needle` occurs at the head of `hay`. -/
def isPrefOf : List Char → List Char → Bool
  | [], _ => true
  | _ :: _, [] => false
  | a :: as, b :: bs => a == b && isPrefOf as bs

/-- Whether `needle` occurs anywhere in `hay`. -/
def occursIn (needle : List Char) : List Char → Bool
  | [] => isPrefOf needle []
  | c :: rest => isPrefOf needle (c :: rest) || occursIn needle rest

/-- Rust `str::contains` for a literal substring. -/
def strContains (hay needle : String) : Bool :=
  occursIn needle.data hay.data

/-! ### The application context

Everything the supervisor reads from its surroundings: platform, build
profile, environment variables, filesystem state, and the outcomes of the
OS calls it performs. -/

structure AppCtx where
  /-- value of `cfg!(windows)` -/
  windows : Bool
  /-- value of `tauri::is_dev()` -/
  isDev : Bool
  /-- result of `app.path().resource_dir()` (`none` = error) -/
  resourceDir : Option String
  /-- result of `std::env::current_exe().ok().and_then(|p| p.parent())` -/
  currentExeParent : Option String
  /-- result of `app.path().app_data_dir()` (`none` = error) -/
  appDataDir : Option String
  /-- compile-time `env!("CARGO_MANIFEST_DIR")` -/
  manifestDir : String
  /-- the process environment, `std::env::var` (`none` = unset or non-unicode) -/
  env : String → Option String
  /-- the filesystem, `Path::exists` -/
  fsExists : String → Bool
  /-- whether `std::fs::create_dir_all` on this path succeeds -/
  createDirOk : String → Bool
  /-- the `io::Error` display text when directory creation fails -/
  createDirErrMsg : String
  /-- the `Command::spawn` outcome: `some e` = fails with message `e` -/
  spawnFailure : Option String

/-! ### Path Resolver: `resolve_backend_path` -/

/-- The platform-dependent executable name. -/
def exeName (windows : Bool) : String :=
  if windows then exeNameWin else exeNameUnix

/-- Embedding of `resolve_backend_path` (lib.rs lines 31-57). -/
def resolve_backend_path (ctx : AppCtx) : Except String String :=
  match ctx.resourceDir with
  | none => Except.error resourceDirErr
  | some rd =>
    let exe := exeName ctx.windows
    let candidate := pjoin rd exe
    if ctx.fsExists candidate then
      Except.ok candidate
    else
      let fallback := ctx.currentExeParent.map (fun parent => pjoin parent exe)
      match fallback with
      | some path =>
        if ctx.fsExists path then
          Except.ok path
        else
          Except.error (notFoundPre ++ candidate ++ dotLit)
      | none => Except.error (notFoundPre ++ candidate ++ dotLit)

/-! ### Process Launcher: `spawn_backend` -/

/-- The external-backend override check at the top of `spawn_backend`. -/
def externalBackendSet (env : String → Option String) : Bool :=
  match env extBackendVar with
  | some value => value == oneLit || eqIgnoreAsciiCase value trueLit
  | none => false

/-- The development database candidate
`CARGO_MANIFEST_DIR/../python-backend/chat_app.db`. -/
def devDbCandidate (manifestDir : String) : String :=
  pjoin (pjoin (pjoin manifestDir dotdotLit) pythonBackendDir) chatDbName

/-- The database-path selection inside `spawn_backend` (lib.rs lines 75-88). -/
def db_path (ctx : AppCtx) (app_data_dir : String) : String :=
  match ctx.env dbPathVar with
  | some value => value
  | none =>
    if ctx.isDev ∧ ctx.fsExists (devDbCandidate ctx.manifestDir) then
      devDbCandidate ctx.manifestDir
    else
      pjoin app_data_dir chatDbName

/-- The spawned child process together with the command configuration it was
started with (`Command` builder state at the `spawn()` call). -/
structure Child where
  exePath : String
  args : List String
  envVars : List (String × String)
  cwd : String
  suppressStdio : Bool
deriving DecidableEq, Repr

/-- Side effects `spawn_backend` performs, in order. -/
inductive Effect where
  | createDirAll (p : String)
  | spawnCall (exe : String)
deriving DecidableEq, Repr

/-- How many spawn system calls a trace contains. -/
def spawnCount (tr : List Effect) : Nat :=
  tr.countP (fun e => match e with | Effect.spawnCall _ => true | _ => false)

/-- Embedding of `spawn_backend` (lib.rs lines 59-108): returns the trace of
side effects performed and the result. -/
def spawn_backend (ctx : AppCtx) : List Effect × Except String Child :=
  if externalBackendSet ctx.env then
    ([], Except.error extSkipMsg)
  else
    match ctx.appDataDir with
    | none => ([], Except.error appDataDirErr)
    | some app_data_dir =>
      if ctx.createDirOk app_data_dir then
        let dbp := db_path ctx app_data_dir
        let app_config_path := pjoin app_data_dir appConfigName
        let tools_config_path := pjoin app_data_dir toolsConfigName
        match resolve_backend_path ctx with
        | Except.error e => ([Effect.createDirAll app_data_dir], Except.error e)
        | Except.ok backend_path =>
          let child : Child :=
            { exePath := backend_path
              args := [argHost, hostVal, argPort, portVal]
              envVars :=
                [(dataDirVar, app_data_dir), (dbPathVar, dbp),
                 (appConfigVar, app_config_path),
                 (toolsConfigVar, tools_config_path)]
              cwd := app_data_dir
              suppressStdio := !ctx.isDev }
          match ctx.spawnFailure with
          | some err =>
            ([Effect.createDirAll app_data_dir, Effect.spawnCall backend_path],
             Except.error (spawnErrPre ++ err))
          | none =>
            ([Effect.createDirAll app_data_dir, Effect.spawnCall backend_path],
             Except.ok child)
      else
        ([Effect.createDirAll app_data_dir],
         Except.error (createDirErrPre ++ ctx.createDirErrMsg))

/-! ### Setup closure (lib.rs lines 117-133) -/

/-- Embedding of the `.setup(...)` closure: first component is the managed
`BackendChild` state after setup (`none` = `app.manage` never called, so
`try_state` finds nothing), second is the closure's return value. -/
def setup (ctx : AppCtx) : Option (Option Child) × Except String Unit :=
  match (spawn_backend ctx).2 with
  | Except.ok child => (some (some child), Except.ok ())
  | Except.error err =>
    if !ctx.isDev && !strContains err extMarker then
      (none, Except.error err)
    else
      (none, Except.ok ())

/-! ### Lifecycle Registry and Shutdown Coordinator -/

/-- Rust `Option::take` on the mutex-guarded slot: returns the previous
content and the emptied slot. -/
def takeOpt (slot : Option Child) : Option Child × Option Child :=
  (slot, none)

/-- What the `on_window_event` handler does in response to one event. -/
structure CloseAction where
  preventClose : Bool
  exitCode : Option Nat
deriving DecidableEq, Repr

/-- Window events, as far as the handler distinguishes them. -/
inductive WEvent where
  | closeRequested
  | other
deriving DecidableEq, Repr

/-- Embedding of the `.on_window_event(...)` handler (lib.rs lines 134-141). -/
def on_window_event (label : String) (ev : WEvent) : CloseAction :=
  match ev with
  | WEvent.closeRequested =>
    if label == mainLabel then
      { preventClose := true, exitCode := some 0 }
    else
      { preventClose := false, exitCode := none }
  | WEvent.other => { preventClose := false, exitCode := none }

/-- Run-loop events, as far as the exit handler distinguishes them. -/
inductive RunEv where
  | exit
  | exitRequested
  | other
deriving DecidableEq, Repr

/-- The `matches!(event, RunEvent::Exit | RunEvent::ExitRequested { .. })`
test. -/
def isExitEvent (ev : RunEv) : Bool :=
  match ev with
  | RunEv.exit => true
  | RunEv.exitRequested => true
  | RunEv.other => false

/-- Embedding of the `app.run(...)` callback (lib.rs lines 145-155) acting on
the managed state; `killResult` is the outcome of `child.kill()`, whose
result the code discards (`let _ = child.kill()`).  Returns the new managed
state and the number of kill invocations issued (0 or 1). -/
def handleRunEvent (killResult : Child → Bool) (managed : Option (Option Child))
    (ev : RunEv) : Option (Option Child) × Nat :=
  if isExitEvent ev then
    match managed with
    | some slot =>
      match takeOpt slot with
      | (some child, emptied) =>
        let _ := killResult child
        (some emptied, 1)
      | (none, emptied) => (some emptied, 0)
    | none => (none, 0)
  else
    (managed, 0)

/-- Folding the run-loop callback over a sequence of delivered events,
summing kill invocations. -/
def processEvents (killResult : Child → Bool) (managed : Option (Option Child)) :
    List RunEv → Option (Option Child) × Nat
  | [] => (managed, 0)
  | e :: rest =>
    let r1 := handleRunEvent killResult managed e
    let r2 := processEvents killResult r1.1 rest
    (r2.1, r1.2 + r2.2)

/-- Modelled from the spec: the host event loop is outside this repository;
per the spec's Shutdown Coordinator contract, `app_handle.exit(0)` makes the
exit-event trigger fire, i.e. the loop delivers an exit-requested event and
then the exit event to the run callback. -/
def exitEventSequence : List RunEv := [RunEv.exitRequested, RunEv.exit]

/-- Simulate a close-request on the window labelled `label`, followed by
`extra` further run-loop events: the window handler fires first; if it
requested application exit, the host loop delivers `exitEventSequence`. -/
def simulateWindowClose (killResult : Child → Bool) (managed : Option (Option Child))
    (label : String) (extra : List RunEv) : Option (Option Child) × Nat :=
  let act := on_window_event label WEvent.closeRequested
  let evs := (if act.exitCode.isSome then exitEventSequence else []) ++ extra
  processEvents killResult managed evs

/-! ### Concrete contexts used to exercise the definitions -/

def emptyStr : String := ""

def upperTrue : String := "TRUE"

def dataDirLit : String := "/data"

def resDirLit : String := "/resources"

def binDirLit : String := "/bin"

def customDb : String := "/tmp/custom.db"

def permDenied : String := "Permission denied (os error 13)"

def manifestLit : String := "/repo/src-tauri"

def otherLabel : String := "secondary"

/-- A production-profile context where every lookup succeeds and no file
exists; variations below override individual fields. -/
def baseCtx : AppCtx :=
  { windows := false
    isDev := false
    resourceDir := some resDirLit
    currentExeParent := some binDirLit
    appDataDir := some dataDirLit
    manifestDir := manifestLit
    env := fun _ => none
    fsExists := fun _ => false
    createDirOk := fun _ => true
    createDirErrMsg := permDenied
    spawnFailure := none }

/-- Context with `TAURI_AGENT_EXTERNAL_BACKEND=TRUE` in the environment. -/
def ctxExternal : AppCtx :=
  { baseCtx with env := fun s => if s = extBackendVar then some upperTrue else none }

/-- App-data-directory creation fails. -/
def ctxCreateFail : AppCtx :=
  { baseCtx with createDirOk := fun _ => false }

/-- Context with `TAURI_AGENT_DB_PATH=/tmp/custom.db` in the environment. -/
def ctxDbOverride : AppCtx :=
  { baseCtx with env := fun s => if s = dbPathVar then some customDb else none }

/-- Only the packaged-resource candidate exists on disk. -/
def ctxResPrimary : AppCtx :=
  { baseCtx with fsExists := fun p => p == pjoin resDirLit exeNameUnix }

/-- Only the fallback next to the host executable exists on disk. -/
def ctxResFallback : AppCtx :=
  { baseCtx with fsExists := fun p => p == pjoin binDirLit exeNameUnix }

/-- The child `spawn_backend` produces in `ctxResPrimary`. -/
def childOk : Child :=
  { exePath := pjoin resDirLit exeNameUnix
    args := [argHost, hostVal, argPort, portVal]
    envVars :=
      [(dataDirVar, dataDirLit), (dbPathVar, pjoin dataDirLit chatDbName),
       (appConfigVar, pjoin dataDirLit appConfigName),
       (toolsConfigVar, pjoin dataDirLit toolsConfigName)]
    cwd := dataDirLit
    suppressStdio := true }

/-! ### Helper lemmas -/

theorem handleRunEvent_slot_empty (kr : Child → Bool) (e : RunEv) :
    handleRunEvent kr (some none) e = (some none, 0) := by
  cases e <;> rfl

theorem handleRunEvent_unmanaged (kr : Child → Bool) (e : RunEv) :
    handleRunEvent kr none e = (none, 0) := by
  cases e <;> rfl

theorem processEvents_slot_empty (kr : Child → Bool) (evs : List RunEv) :
    processEvents kr (some none) evs = (some none, 0) := by
  induction evs with
  | nil => rfl
  | cons e rest ih => simp [processEvents, handleRunEvent_slot_empty, ih]

theorem processEvents_unmanaged (kr : Child → Bool) (evs : List RunEv) :
    processEvents kr none evs = (none, 0) := by
  induction evs with
  | nil => rfl
  | cons e rest ih => simp [processEvents, handleRunEvent_unmanaged, ih]

theorem handleRunEvent_ignores_kill_result (kr kr2 : Child → Bool)
    (m : Option (Option Child)) (e : RunEv) :
    handleRunEvent kr m e = handleRunEvent kr2 m e := rfl

theorem simulateWindowClose_main (kr : Child → Bool) (c : Child)
    (extra : List RunEv) :
    simulateWindowClose kr (some (some c)) mainLabel extra = (some none, 1) := by
  simp [simulateWindowClose, on_window_event, exitEventSequence, processEvents,
        handleRunEvent, isExitEvent, takeOpt, processEvents_slot_empty]

theorem spawn_backend_external (ctx : AppCtx)
    (h : externalBackendSet ctx.env = true) :
    spawn_backend ctx = ([], Except.error extSkipMsg) := by
  unfold spawn_backend
  rw [h]
  rfl

theorem extSkipMsg_has_marker : strContains extSkipMsg extMarker = true := by
  decide

theorem setup_external_not_managed (ctx : AppCtx)
    (h : externalBackendSet ctx.env = true) :
    (setup ctx).1 = none := by
  unfold setup
  rw [spawn_backend_external ctx h]
  simp [extSkipMsg_has_marker]

/-! ### Claim theorems -/

/-- C1: a close-request on the primary window causes exactly one kill
invocation on the tracked backend process handle, even if an application
exit event is delivered afterward (or delivered more than once), and the
kill result is ignored (the outcome does not depend on what `kill`
returns). -/
theorem close_main_kills_exactly_once (kr kr2 : Child → Bool) (c : Child)
    (extra : List RunEv) :
    simulateWindowClose kr (some (some c)) mainLabel extra = (some none, 1)
    ∧ simulateWindowClose kr (some (some c)) mainLabel extra
      = simulateWindowClose kr2 (some (some c)) mainLabel extra :=
  ⟨simulateWindowClose_main kr c extra,
   (simulateWindowClose_main kr c extra).trans
     (simulateWindowClose_main kr2 c extra).symm⟩

/-- C2: when `TAURI_AGENT_EXTERNAL_BACKEND` is set to `1` or a
case-insensitive `true`, `spawn_backend` performs no side effect at all (in
particular no spawn call) and returns the informational skip error, and the
setup closure succeeds even in a production build. -/
theorem external_backend_skips_spawn (ctx : AppCtx)
    (h : externalBackendSet ctx.env = true) :
    spawn_backend ctx = ([], Except.error extSkipMsg)
    ∧ spawnCount (spawn_backend ctx).1 = 0
    ∧ (setup ctx).2 = Except.ok () := by
  have hsb := spawn_backend_external ctx h
  refine ⟨hsb, ?_, ?_⟩
  · rw [hsb]; rfl
  · unfold setup
    rw [hsb]
    simp [extSkipMsg_has_marker]

/-- C2 witness: with `TAURI_AGENT_EXTERNAL_BACKEND=TRUE` in a production
context, spawning is skipped and setup succeeds. -/
theorem external_backend_skips_spawn_witness :
    externalBackendSet ctxExternal.env = true
    ∧ (spawn_backend ctxExternal = ([], Except.error extSkipMsg)
       ∧ spawnCount (spawn_backend ctxExternal).1 = 0
       ∧ (setup ctxExternal).2 = Except.ok ()) :=
  ⟨by decide, external_backend_skips_spawn ctxExternal (by decide)⟩

/-- C3: if app-data-directory creation fails, `spawn_backend` returns the
descriptive error without any spawn call; the setup closure aborts with that
error in a production build (provided the OS error text does not contain the
external-backend marker) and succeeds without a backend in a development
build. -/
theorem create_dir_failure_aborts (ctx : AppCtx) (d : String)
    (hext : externalBackendSet ctx.env = false)
    (hdir : ctx.appDataDir = some d)
    (hfail : ctx.createDirOk d = false)
    (hmsg : strContains (createDirErrPre ++ ctx.createDirErrMsg) extMarker = false) :
    (spawn_backend ctx).2 = Except.error (createDirErrPre ++ ctx.createDirErrMsg)
    ∧ spawnCount (spawn_backend ctx).1 = 0
    ∧ (ctx.isDev = false →
        setup ctx = (none, Except.error (createDirErrPre ++ ctx.createDirErrMsg)))
    ∧ (ctx.isDev = true → setup ctx = (none, Except.ok ())) := by
  have hsb : spawn_backend ctx =
      ([Effect.createDirAll d], Except.error (createDirErrPre ++ ctx.createDirErrMsg)) := by
    unfold spawn_backend
    simp [hext, hdir, hfail]
  refine ⟨by rw [hsb], by rw [hsb]; rfl, ?_, ?_⟩
  · intro hdev
    unfold setup
    rw [hsb]
    simp [hdev, hmsg]
  · intro hdev
    unfold setup
    rw [hsb]
    simp [hdev]

/-- C3 witness: a concrete permission-denied failure in a production
context aborts setup with the create-directory error. -/
theorem create_dir_failure_aborts_witness :
    (externalBackendSet ctxCreateFail.env = false
     ∧ ctxCreateFail.appDataDir = some dataDirLit
     ∧ ctxCreateFail.createDirOk dataDirLit = false
     ∧ strContains (createDirErrPre ++ ctxCreateFail.createDirErrMsg) extMarker = false
     ∧ ctxCreateFail.isDev = false)
    ∧ setup ctxCreateFail =
        (none, Except.error (createDirErrPre ++ ctxCreateFail.createDirErrMsg)) :=
  ⟨⟨rfl, rfl, rfl, by decide, rfl⟩,
   (create_dir_failure_aborts ctxCreateFail dataDirLit rfl rfl rfl
      (by decide)).2.2.1 rfl⟩

/-- C4: the database path honours the priority order: the
`TAURI_AGENT_DB_PATH` environment override first; otherwise, in a
development build with an existing source-tree database, that file;
otherwise `app_data_dir/chat_app.db`. -/
theorem db_path_priority (ctx : AppCtx) (d : String) :
    (∀ v, ctx.env dbPathVar = some v → db_path ctx d = v)
    ∧ (ctx.env dbPathVar = none → ctx.isDev = true →
        ctx.fsExists (devDbCandidate ctx.manifestDir) = true →
        db_path ctx d = devDbCandidate ctx.manifestDir)
    ∧ (ctx.env dbPathVar = none →
        (ctx.isDev = false ∨ ctx.fsExists (devDbCandidate ctx.manifestDir) = false) →
        db_path ctx d = pjoin d chatDbName) := by
  refine ⟨?_, ?_, ?_⟩
  · intro v hv
    unfold db_path
    rw [hv]
  · intro hv hdev hfs
    unfold db_path
    rw [hv]
    simp [hdev, hfs]
  · intro hv hcase
    unfold db_path
    rw [hv]
    rcases hcase with hdev | hfs
    · simp [hdev]
    · simp [hfs]

/-- C4 witness: with `TAURI_AGENT_DB_PATH=/tmp/custom.db` the override
wins; with no override in a production context the app-data default is
chosen. -/
theorem db_path_priority_witness :
    (ctxDbOverride.env dbPathVar = some customDb
     ∧ db_path ctxDbOverride dataDirLit = customDb)
    ∧ (baseCtx.env dbPathVar = none
       ∧ db_path baseCtx dataDirLit = pjoin dataDirLit chatDbName) :=
  ⟨⟨by decide, (db_path_priority ctxDbOverride dataDirLit).1 customDb (by decide)⟩,
   ⟨rfl, (db_path_priority baseCtx dataDirLit).2.2 rfl (Or.inl rfl)⟩⟩

/-- C5: if a file exists at `resource_dir/exe_name` the resolver returns
exactly that path — for every value of the fallback data, so the fallback is
never consulted; if the candidate does not exist but
`parent_dir(current_executable)/exe_name` does, the resolver returns the
fallback path. -/
theorem resolver_priority (ctx : AppCtx) (rd : String)
    (hrd : ctx.resourceDir = some rd) :
    (ctx.fsExists (pjoin rd (exeName ctx.windows)) = true →
      resolve_backend_path ctx = Except.ok (pjoin rd (exeName ctx.windows)))
    ∧ (∀ p, ctx.fsExists (pjoin rd (exeName ctx.windows)) = false →
        ctx.currentExeParent = some p →
        ctx.fsExists (pjoin p (exeName ctx.windows)) = true →
        resolve_backend_path ctx = Except.ok (pjoin p (exeName ctx.windows))) := by
  constructor
  · intro hc
    unfold resolve_backend_path
    rw [hrd]
    simp [hc]
  · intro p hc hp hf
    unfold resolve_backend_path
    rw [hrd]
    simp [hc, hp, hf]

/-- C5 witness: with only the packaged candidate on disk the resolver picks
it; with only the fallback on disk the resolver picks the fallback. -/
theorem resolver_priority_witness :
    (ctxResPrimary.resourceDir = some resDirLit
     ∧ ctxResPrimary.fsExists (pjoin resDirLit (exeName ctxResPrimary.windows)) = true
     ∧ resolve_backend_path ctxResPrimary
         = Except.ok (pjoin resDirLit (exeName ctxResPrimary.windows)))
    ∧ (ctxResFallback.fsExists (pjoin resDirLit (exeName ctxResFallback.windows)) = false
       ∧ ctxResFallback.currentExeParent = some binDirLit
       ∧ ctxResFallback.fsExists (pjoin binDirLit (exeName ctxResFallback.windows)) = true
       ∧ resolve_backend_path ctxResFallback
           = Except.ok (pjoin binDirLit (exeName ctxResFallback.windows))) :=
  ⟨⟨rfl, by decide,
    (resolver_priority ctxResPrimary resDirLit rfl).1 (by decide)⟩,
   ⟨by decide, rfl, by decide,
    (resolver_priority ctxResFallback resDirLit rfl).2 binDirLit (by decide) rfl
      (by decide)⟩⟩

/-- C6: when neither the packaged candidate nor the fallback exists (or the
host executable has no parent directory), the resolver fails with the
"backend not found" error naming the packaged candidate path. -/
theorem resolver_not_found (ctx : AppCtx) (rd : String)
    (hrd : ctx.resourceDir = some rd)
    (hc : ctx.fsExists (pjoin rd (exeName ctx.windows)) = false)
    (hf : ∀ p, ctx.currentExeParent = some p →
          ctx.fsExists (pjoin p (exeName ctx.windows)) = false) :
    resolve_backend_path ctx
      = Except.error (notFoundPre ++ pjoin rd (exeName ctx.windows) ++ dotLit) := by
  unfold resolve_backend_path
  rw [hrd]
  cases hp : ctx.currentExeParent with
  | none => simp [hc, hp]
  | some p => simp [hc, hp, hf p hp]

/-- C6 witness: with an empty filesystem the resolver reports the packaged
candidate in its error. -/
theorem resolver_not_found_witness :
    (baseCtx.resourceDir = some resDirLit
     ∧ baseCtx.fsExists (pjoin resDirLit (exeName baseCtx.windows)) = false)
    ∧ resolve_backend_path baseCtx
        = Except.error (notFoundPre ++ pjoin resDirLit (exeName baseCtx.windows) ++ dotLit) :=
  ⟨⟨rfl, rfl⟩,
   resolver_not_found baseCtx resDirLit rfl rfl
     (fun _ _ => rfl)⟩

/-- C7: after a successful spawn the handle is installed in the registry;
`take()` removes and returns it, leaving the slot empty, and a further
`take()` on the emptied slot returns nothing. -/
theorem take_exactly_once (ctx : AppCtx) (child : Child)
    (h : (spawn_backend ctx).2 = Except.ok child) :
    (setup ctx).1 = some (some child)
    ∧ takeOpt (some child) = (some child, none)
    ∧ takeOpt none = (none, none) := by
  refine ⟨?_, rfl, rfl⟩
  unfold setup
  rw [h]

/-- C7 witness: in a context where the spawn succeeds, the handle is
installed and the two `take()` calls behave as stated. -/
theorem take_exactly_once_witness :
    (spawn_backend ctxResPrimary).2 = Except.ok childOk
    ∧ ((setup ctxResPrimary).1 = some (some childOk)
       ∧ takeOpt (some childOk) = (some childOk, none)
       ∧ takeOpt none = (none, none)) :=
  ⟨rfl, take_exactly_once ctxResPrimary childOk rfl⟩

/-- C8: when the external-backend override is on, no spawn call is ever
issued, the registry never holds a handle (the managed state is absent), and
processing any sequence of run-loop events issues zero kill invocations. -/
theorem external_backend_invariant (ctx : AppCtx)
    (h : externalBackendSet ctx.env = true) :
    spawnCount (spawn_backend ctx).1 = 0
    ∧ (setup ctx).1 = none
    ∧ (∀ kr evs, processEvents kr (setup ctx).1 evs = ((setup ctx).1, 0)) := by
  have hsetup := setup_external_not_managed ctx h
  refine ⟨?_, hsetup, ?_⟩
  · rw [spawn_backend_external ctx h]
    rfl
  · intro kr evs
    rw [hsetup]
    exact processEvents_unmanaged kr evs

/-- C8 witness: with `TAURI_AGENT_EXTERNAL_BACKEND=TRUE`, no handle is
installed and the exit handler kills nothing on an exit sequence. -/
theorem external_backend_invariant_witness :
    externalBackendSet ctxExternal.env = true
    ∧ (setup ctxExternal).1 = none
    ∧ processEvents (fun _ => true) (setup ctxExternal).1 exitEventSequence
        = ((setup ctxExternal).1, 0) :=
  ⟨by decide, (external_backend_invariant ctxExternal (by decide)).2.1,
   (external_backend_invariant ctxExternal (by decide)).2.2 (fun _ => true)
     exitEventSequence⟩

/-- C9: every path the resolver returns successfully exists on the
filesystem at resolution time. -/
theorem resolver_returns_existing (ctx : AppCtx) (p : String)
    (h : resolve_backend_path ctx = Except.ok p) :
    ctx.fsExists p = true := by
  unfold resolve_backend_path at h
  cases hrd : ctx.resourceDir with
  | none => rw [hrd] at h; exact absurd h (by simp)
  | some rd =>
    rw [hrd] at h
    simp only at h
    by_cases hc : ctx.fsExists (pjoin rd (exeName ctx.windows)) = true
    · rw [if_pos hc] at h
      cases h
      exact hc
    · rw [if_neg hc] at h
      cases hp : ctx.currentExeParent with
      | none => rw [hp] at h; exact absurd h (by simp [Option.map])
      | some par =>
        rw [hp] at h
        simp only [Option.map] at h
        by_cases hf : ctx.fsExists (pjoin par (exeName ctx.windows)) = true
        · rw [if_pos hf] at h
          cases h
          exact hf
        · rw [if_neg hf] at h
          exact absurd h (by simp)

/-- C9 witness: the path returned in the packaged-resource context exists
there. -/
theorem resolver_returns_existing_witness :
    resolve_backend_path ctxResPrimary
      = Except.ok (pjoin resDirLit (exeName ctxResPrimary.windows))
    ∧ ctxResPrimary.fsExists (pjoin resDirLit (exeName ctxResPrimary.windows)) = true :=
  ⟨rfl,
   resolver_returns_existing ctxResPrimary
     (pjoin resDirLit (exeName ctxResPrimary.windows)) rfl⟩

/-- C10: a close-request on a window whose label is not `main` is not
intercepted: the default close is not prevented, no application exit is
requested, and simulating that close issues no kill and leaves the registry
state unchanged. -/
theorem nonmain_close_not_intercepted (label : String)
    (h : ¬ label = mainLabel) :
    on_window_event label WEvent.closeRequested
      = { preventClose := false, exitCode := none }
    ∧ (∀ kr managed, simulateWindowClose kr managed label [] = (managed, 0)) := by
  have hbeq : (label == mainLabel) = false := beq_eq_false_iff_ne.mpr h
  constructor
  · unfold on_window_event
    rw [hbeq]
    rfl
  · intro kr managed
    unfold simulateWindowClose on_window_event
    rw [hbeq]
    rfl

/-- C10 witness: a close-request on a window labelled `secondary` is left
alone. -/
theorem nonmain_close_not_intercepted_witness :
    ¬ otherLabel = mainLabel
    ∧ on_window_event otherLabel WEvent.closeRequested
        = { preventClose := false, exitCode := none }
    ∧ simulateWindowClose (fun _ => true) (some (some childOk)) otherLabel []
        = (some (some childOk), 0) :=
  ⟨by decide,
   (nonmain_close_not_intercepted otherLabel (by decide)).1,
   (nonmain_close_not_intercepted otherLabel (by decide)).2 (fun _ => true)
     (some (some childOk))⟩

end TauriAgent
